import Mathlib

/-
Verification of maya_fk_gui.py (krishernandez/maya_fk_gui).

The module is a straight-line Maya macro behind a small Qt dialog.  We embed
it shallowly: the host application (Maya) is an explicit environment `Host`
carrying the current selection, the object-type oracle and the results the
scene commands return, and each GUI/scene action is recorded as an `Event`.
`run_tool`, `update_selection` and `identify_selection` are translated
line by line from the source into functions producing event traces.
-/

/-- Structural translation of the Python string method replace.  The scan
walks the character list left to right; on a match of `pat` it emits `rep`
and skips the matched characters (the `skip` counter tracks how many of them
remain to be consumed), exactly the non-overlapping left-to-right semantics
of `str.replace` for a nonempty pattern. -/
def replGo (pat rep : List Char) : Nat → List Char → List Char
  | _, [] => []
  | 0, c :: cs =>
    if (c :: cs).take pat.length = pat ∧ pat ≠ [] then
      rep ++ replGo pat rep (pat.length - 1) cs
    else
      c :: replGo pat rep 0 cs
  | Nat.succ n, _ :: cs => replGo pat rep n cs

/-- Python `s.replace(pat, rep)` for the nonempty patterns the tool uses. -/
def pyReplace (s pat rep : String) : String :=
  String.mk (replGo pat.toList rep.toList 0 s.toList)

/-- Whether `pat` occurs as a contiguous sublist. -/
def hasSub (pat : List Char) : List Char → Bool
  | [] => decide (pat = [])
  | c :: cs => decide ((c :: cs).take pat.length = pat) || hasSub pat cs

/-- Whether the string `pat` occurs inside `s`. -/
def containsStr (s pat : String) : Bool :=
  hasSub pat.toList s.toList

/-- Python truthiness of an optional string: `None` and the empty string are
falsy, as in the guards `if not sel_joint or not sel_curve` and
`if joint and curve` of the source. -/
def pyTruthy : Option String → Bool
  | none => false
  | some s => s != ""

/-- One observable action of the tool: a call into the Maya command layer
(`cmds.*`) or a write to one of the dialog widgets.  `deleteObj` records the
deletion of the temporary parent constraint (line 148); `deleteHistory`
records `cmds.delete(..., constructionHistory=True)` (line 134). -/
inductive Event where
  | makeIdentity (obj : String)
  | deleteHistory (obj : String)
  | rename (obj newName : String)
  | group (obj name : String)
  | parentConstraint (target obj : String) (maintainOffset : Bool)
  | deleteObj (obj : String)
  | orientConstraint (target obj : String) (maintainOffset : Bool)
  | pickWalk (obj : String)
  | warning (msg : String)
  | setInfoText (text : String)
  | setSelectedText (text : String)
  | setRunEnabled (enabled : Bool)
deriving DecidableEq

/-- Scene-graph edits: the commands that mutate the Maya scene.  Queries
(`pickWalk`), warnings and widget writes are not scene edits. -/
def Event.isSceneEdit : Event → Bool
  | .makeIdentity _ => true
  | .deleteHistory _ => true
  | .rename _ _ => true
  | .group _ _ => true
  | .parentConstraint _ _ _ => true
  | .deleteObj _ => true
  | .orientConstraint _ _ _ => true
  | _ => false

/-- Constraint operations on the scene graph. -/
def Event.isConstraintOp : Event → Bool
  | .parentConstraint _ _ _ => true
  | .orientConstraint _ _ _ => true
  | _ => false

/-- Calls into the host (Maya) API, as opposed to widget writes. -/
def Event.isHostCall : Event → Bool
  | .setInfoText _ => false
  | .setSelectedText _ => false
  | .setRunEnabled _ => false
  | _ => true

/-- Writes to the dialog widgets (the two labels and the Run button). -/
def Event.isWidgetWrite : Event → Bool
  | .setInfoText _ => true
  | .setSelectedText _ => true
  | .setRunEnabled _ => true
  | _ => false

/-- Writes to the Run button state. -/
def Event.isRunButtonWrite : Event → Bool
  | .setRunEnabled _ => true
  | _ => false

/-- Warnings emitted through `cmds.warning`. -/
def Event.isWarning : Event → Bool
  | .warning _ => true
  | _ => false

/-- The host environment the tool runs against.  `selection` is what
`cmds.ls(selection=True)` returns when the Run button is pressed;
`typeOf` is `cmds.objectType`; `renameResult`, `groupResult` and
`constraintNode` give the names the corresponding commands return;
`pickWalkUp` is the first entry of `cmds.pickWalk(obj, direction="up")`;
`selAfter` is the selection the trailing `update_selection` re-query sees. -/
structure Host where
  selection : List String
  typeOf : String → String
  renameResult : String → String → String
  groupResult : String → String → String
  constraintNode : String → String → String
  pickWalkUp : String → String
  selAfter : List String

/-- Whether `cmds.objectType` reports the object as a joint. -/
def isJointObj (h : Host) (o : String) : Bool :=
  h.typeOf o == "joint"

/-- Whether `cmds.objectType` reports the object as a transform. -/
def isTransformObj (h : Host) (o : String) : Bool :=
  h.typeOf o == "transform"

/-- The loop body of `identify_selection` (lines 114-119): two variables
start at `None` and are overwritten as the selection list is traversed. -/
def identify_go (h : Host) : List String → Option String × Option String → Option String × Option String
  | [], acc => acc
  | obj :: rest, acc =>
    if isJointObj h obj then
      identify_go h rest (some obj, acc.2)
    else if isTransformObj h obj then
      identify_go h rest (acc.1, some obj)
    else
      identify_go h rest acc

/-- `JointCurveTool.identify_selection` (lines 106-120). -/
def identify_selection (h : Host) (sel : List String) : Option String × Option String :=
  identify_go h sel (none, none)

/-- The events `JointCurveTool.update_selection` (lines 89-104) performs on
the given selection query result: one label write and one Run-button write. -/
def update_selection_events (h : Host) (sel : List String) : List Event :=
  if sel.length ≠ 2 then
    [Event.setSelectedText "You must select one joint and one curve.",
     Event.setRunEnabled false]
  else
    match identify_selection h sel with
    | (some joint, some curve) =>
      if joint != "" && curve != "" then
        [Event.setSelectedText ("Selected Joint: " ++ joint ++ "\nSelected Curve: " ++ curve),
         Event.setRunEnabled true]
      else
        [Event.setSelectedText "Selection must include one joint and one curve.",
         Event.setRunEnabled false]
    | _ =>
      [Event.setSelectedText "Selection must include one joint and one curve.",
       Event.setRunEnabled false]

/-- The warning text of line 129. -/
def warnMsg : String :=
  "Selection must contain one joint and one curve."

/-- The scene-edit body of `run_tool` (lines 132-155), run once validation
has passed, with `sel_joint` and `sel_curve` the identified objects. -/
def run_tool_actions (h : Host) (sel_joint sel_curve : String) : List Event :=
  let ctrl_req := pyReplace sel_joint "BIND" "CC"
  let ctrl_name := h.renameResult sel_curve ctrl_req
  let grp_req := pyReplace ctrl_name "CC" "cc_GRP"
  let grp_name := h.groupResult ctrl_name grp_req
  let result := h.constraintNode sel_joint grp_name
  let parent_joint := h.pickWalkUp sel_joint
  [Event.makeIdentity sel_curve,
   Event.deleteHistory sel_curve,
   Event.rename sel_curve ctrl_req,
   Event.group ctrl_name grp_req,
   Event.parentConstraint sel_joint grp_name false,
   Event.deleteObj result,
   Event.orientConstraint ctrl_name sel_joint false,
   Event.pickWalk sel_joint,
   Event.parentConstraint parent_joint grp_name true]

/-- `JointCurveTool.run_tool` (lines 122-158) as the trace of events it
performs after its opening selection query: identify the joint and the
curve, bail out with a single warning when either is missing, otherwise run
the scene edits, set the info label and refresh via `update_selection`. -/
def run_tool_events (h : Host) : List Event :=
  match identify_selection h h.selection with
  | (some sel_joint, some sel_curve) =>
    if sel_joint != "" && sel_curve != "" then
      run_tool_actions h sel_joint sel_curve
        ++ Event.setInfoText "Tool executed successfully."
        :: update_selection_events h h.selAfter
    else
      [Event.warning warnMsg]
  | _ => [Event.warning warnMsg]

/-- The validation check of line 128: both identified handles are truthy. -/
def run_tool_valid (h : Host) : Bool :=
  pyTruthy (identify_selection h h.selection).1
    && pyTruthy (identify_selection h h.selection).2

/-- How a Qt dialog can be put on screen: `QDialog.show()` displays it
modeless, `QDialog.exec_()` runs it as a modal dialog blocking the rest of
the application. -/
inductive DialogDisplay where
  | show
  | exec
deriving DecidableEq

/-- Modality of the two display calls, per the Qt widget toolkit. -/
def DialogDisplay.isModal : DialogDisplay → Bool
  | .show => false
  | .exec => true

/-- `show_tool` (lines 160-166) puts the dialog on screen with
`tool_instance.show()`. -/
def show_tool_display : DialogDisplay :=
  DialogDisplay.show

/-- Last element of a list, or the default when the list is empty; mirrors a
variable that a loop overwrites on every matching element. -/
def lastD {α : Type} : List α → Option α → Option α
  | [], d => d
  | a :: l, _ => lastD l (some a)

/-- Default host construction shared by the concrete scenarios: the rename
and group commands return the requested names, the temporary constraint node
gets a conventional suffix, and pickWalk up of an object returns the object
itself (as Maya does for a top-level node). -/
def mkHost (sel : List String) (ty : String → String) : Host :=
  { selection := sel
    typeOf := ty
    renameResult := fun _ req => req
    groupResult := fun _ req => req
    constraintNode := fun _ grp => grp ++ "_parentConstraint1"
    pickWalkUp := fun j => j
    selAfter := sel }

/-- Object types of a scene holding two joints and one transform. -/
def tyTwoJoints (s : String) : String :=
  if s = "hipA_BIND" ∨ s = "hipB_BIND" then "joint"
  else if s = "crv1" then "transform"
  else "mesh"

/-- A host selection holding two joints and one transform. -/
def twoJointHost : Host :=
  mkHost ["hipA_BIND", "hipB_BIND", "crv1"] tyTwoJoints

/-- Object types of a scene where arm_BIND is the only joint. -/
def tyGood (s : String) : String :=
  if s = "arm_BIND" then "joint" else "transform"

/-- The intended host selection: exactly one joint and one curve transform. -/
def goodHost : Host :=
  mkHost ["arm_BIND", "crv1"] tyGood

/-- Object types of a scene where spineJnt is the only joint. -/
def tyPlain (s : String) : String :=
  if s = "spineJnt" then "joint" else "transform"

/-- A valid selection whose joint name does not contain BIND. -/
def plainHost : Host :=
  mkHost ["spineJnt", "crv2"] tyPlain

/-- A host with nothing selected. -/
def emptyHost : Host :=
  mkHost [] tyGood

theorem pyReplace_sample_one : pyReplace "shoulder_BIND_l" "BIND" "CC" = "shoulder_CC_l" := by
  decide

theorem pyReplace_sample_two : pyReplace "aBINDbBINDc" "BIND" "CC" = "aCCbCCc" := by
  decide

theorem pyReplace_sample_three : pyReplace "spineJnt" "BIND" "CC" = "spineJnt" := by
  decide

theorem pyReplace_sample_four : pyReplace "xCCyCC" "CC" "cc_GRP" = "xcc_GRPycc_GRP" := by
  decide

theorem containsStr_sample_one : containsStr "spineJnt" "BIND" = false := by
  decide

theorem containsStr_sample_two : containsStr "aBINDc" "BIND" = true := by
  decide

theorem not_transform_of_joint (h : Host) (o : String) (hj : isJointObj h o = true) :
    isTransformObj h o = false := by
  simp only [isJointObj, beq_iff_eq] at hj
  simp [isTransformObj, hj]

theorem lastD_eq_elim {α : Type} (l : List α) : ∀ d : Option α, lastD l d = (l.getLast?).elim d some := by
  induction l with
  | nil => intro d; rfl
  | cons a t ih =>
    intro d
    show lastD t (some a) = _
    rw [ih (some a)]
    cases t with
    | nil => rfl
    | cons b t2 =>
      rw [List.getLast?_cons_cons]
      obtain ⟨x, hx⟩ := Option.isSome_iff_exists.mp (List.getLast?_isSome.mpr (List.cons_ne_nil b t2))
      rw [hx]
      rfl

theorem identify_go_eq (h : Host) (sel : List String) :
    ∀ acc, identify_go h sel acc =
      (lastD (sel.filter (isJointObj h)) acc.1, lastD (sel.filter (isTransformObj h)) acc.2) := by
  induction sel with
  | nil => intro acc; rfl
  | cons obj rest ih =>
    intro acc
    cases hj : isJointObj h obj with
    | true =>
      have ht := not_transform_of_joint h obj hj
      simp only [identify_go, hj, if_true]
      rw [ih (some obj, acc.2), List.filter_cons_of_pos hj, List.filter_cons_of_neg (by simp [ht])]
      rfl
    | false =>
      cases ht : isTransformObj h obj with
      | true =>
        simp only [identify_go, hj, ht, if_true, if_false, Bool.false_eq_true]
        rw [ih (acc.1, some obj), List.filter_cons_of_neg (by simp [hj]), List.filter_cons_of_pos ht]
        rfl
      | false =>
        simp only [identify_go, hj, ht, if_false, Bool.false_eq_true]
        rw [ih acc, List.filter_cons_of_neg (by simp [hj]), List.filter_cons_of_neg (by simp [ht])]

theorem identify_spec (h : Host) (sel : List String) :
    identify_selection h sel =
      ((sel.filter (isJointObj h)).getLast?, (sel.filter (isTransformObj h)).getLast?) := by
  rw [identify_selection, identify_go_eq h sel (none, none)]
  rw [lastD_eq_elim, lastD_eq_elim]
  cases (sel.filter (isJointObj h)).getLast? <;> cases (sel.filter (isTransformObj h)).getLast? <;> rfl

theorem identify_joint_mem (h : Host) (sel : List String) (j : String)
    (hj : (identify_selection h sel).1 = some j) : j ∈ sel := by
  rw [identify_spec] at hj
  exact List.mem_of_mem_filter (List.mem_of_getLast?_eq_some hj)

theorem identify_curve_mem (h : Host) (sel : List String) (c : String)
    (hc : (identify_selection h sel).2 = some c) : c ∈ sel := by
  rw [identify_spec] at hc
  exact List.mem_of_mem_filter (List.mem_of_getLast?_eq_some hc)

theorem update_selection_shape (h : Host) (sel : List String) :
    ∃ t b, update_selection_events h sel = [Event.setSelectedText t, Event.setRunEnabled b] := by
  unfold update_selection_events
  split
  · exact ⟨_, _, rfl⟩
  · split
    · split
      · exact ⟨_, _, rfl⟩
      · exact ⟨_, _, rfl⟩
    · exact ⟨_, _, rfl⟩

theorem update_selection_no_scene_edit (h : Host) (sel : List String) :
    (update_selection_events h sel).filter Event.isSceneEdit = [] := by
  obtain ⟨t, b, hs⟩ := update_selection_shape h sel
  rw [hs]
  rfl

theorem update_selection_no_host_call (h : Host) (sel : List String) :
    (update_selection_events h sel).filter Event.isHostCall = [] := by
  obtain ⟨t, b, hs⟩ := update_selection_shape h sel
  rw [hs]
  rfl

theorem run_tool_events_of_valid (h : Host) (j c : String)
    (hid : identify_selection h h.selection = (some j, some c))
    (hj : j ≠ "") (hc : c ≠ "") :
    run_tool_events h =
      run_tool_actions h j c
        ++ Event.setInfoText "Tool executed successfully."
        :: update_selection_events h h.selAfter := by
  unfold run_tool_events
  rw [hid]
  simp [hj, hc]

theorem run_tool_events_of_invalid (h : Host) (hv : run_tool_valid h = false) :
    run_tool_events h = [Event.warning warnMsg] := by
  unfold run_tool_valid at hv
  unfold run_tool_events
  rcases hid : identify_selection h h.selection with ⟨j?, c?⟩
  rw [hid] at hv
  cases j? with
  | none => rfl
  | some j =>
    cases c? with
    | none => rfl
    | some c =>
      simp only [pyTruthy] at hv
      simp [hv]

theorem replGo_of_not_hasSub (pat rep : List Char) :
    ∀ l, hasSub pat l = false → replGo pat rep 0 l = l := by
  intro l
  induction l with
  | nil => intro _; rfl
  | cons c cs ih =>
    intro hno
    simp only [hasSub, Bool.or_eq_false_iff, decide_eq_false_iff_not] at hno
    obtain ⟨h1, h2⟩ := hno
    show (if (c :: cs).take pat.length = pat ∧ pat ≠ [] then _ else _) = c :: cs
    rw [if_neg (fun hcon => h1 hcon.1)]
    rw [ih h2]

theorem pyReplace_of_not_contains (s pat rep : String)
    (hno : containsStr s pat = false) : pyReplace s pat rep = s := by
  unfold pyReplace
  rw [replGo_of_not_hasSub pat.toList rep.toList s.toList hno]
  cases s
  rfl

theorem any_of_filter_getLast (p : String → Bool) (l : List String) (x : String)
    (hx : (l.filter p).getLast? = some x) : l.any p = true := by
  have hm := List.mem_of_getLast?_eq_some hx
  rw [List.mem_filter] at hm
  exact List.any_eq_true.mpr ⟨x, hm.1, hm.2⟩

theorem any_false_of_filter_getLast_none (p : String → Bool) (l : List String)
    (hx : (l.filter p).getLast? = none) : l.any p = false := by
  rw [List.getLast?_eq_none_iff, List.filter_eq_nil_iff] at hx
  rw [Bool.eq_false_iff]
  intro hcon
  obtain ⟨x, hmem, hp⟩ := List.any_eq_true.mp hcon
  exact hx x hmem hp

/-- C1 counterexample: with two joints and one transform selected
(hipA_BIND, hipB_BIND, crv1) run_tool still performs its scene edits, though
the selection does not contain exactly one skeletal joint. -/
theorem C1_counterexample :
    (twoJointHost.selection.filter (isJointObj twoJointHost)).length = 2
      ∧ (run_tool_events twoJointHost).any Event.isSceneEdit = true := by
  decide

/-- C1 (amended): for any host selection of nonempty names, run_tool
performs its scene-edit sequence exactly when the selection contains at
least one joint-typed object and at least one transform-typed object; no
exactly-one check is made, the last object of each type being used. -/
theorem C1_edit_gate (h : Host) (hn : ∀ s ∈ h.selection, s ≠ "") :
    ((run_tool_events h).any Event.isSceneEdit = true ↔
      (h.selection.any (isJointObj h) = true ∧ h.selection.any (isTransformObj h) = true)) := by
  have hspec := identify_spec h h.selection
  rcases hgJ : (h.selection.filter (isJointObj h)).getLast? with _ | j
  · have hv : run_tool_valid h = false := by
      unfold run_tool_valid
      rw [hspec, hgJ]
      rfl
    rw [run_tool_events_of_invalid h hv]
    apply iff_of_false
    · decide
    · rintro ⟨h1, -⟩
      rw [any_false_of_filter_getLast_none (isJointObj h) h.selection hgJ] at h1
      exact absurd h1 (by decide)
  · rcases hgT : (h.selection.filter (isTransformObj h)).getLast? with _ | c
    · have hv : run_tool_valid h = false := by
        unfold run_tool_valid
        rw [hspec, hgJ, hgT]
        simp [pyTruthy]
      rw [run_tool_events_of_invalid h hv]
      apply iff_of_false
      · decide
      · rintro ⟨-, h2⟩
        rw [any_false_of_filter_getLast_none (isTransformObj h) h.selection hgT] at h2
        exact absurd h2 (by decide)
    · have hj : j ≠ "" := hn j (identify_joint_mem h h.selection j (by rw [hspec]; exact hgJ))
      have hc : c ≠ "" := hn c (identify_curve_mem h h.selection c (by rw [hspec]; exact hgT))
      have hid : identify_selection h h.selection = (some j, some c) := by
        rw [hspec, hgJ, hgT]
      rw [run_tool_events_of_valid h j c hid hj hc]
      apply iff_of_true
      · rfl
      · exact ⟨any_of_filter_getLast (isJointObj h) h.selection j hgJ,
          any_of_filter_getLast (isTransformObj h) h.selection c hgT⟩

/-- C1 witness: the amended gate instantiated on the intended selection of
exactly one joint and one curve. -/
theorem C1_witness :
    (∀ s ∈ goodHost.selection, s ≠ "")
      ∧ ((run_tool_events goodHost).any Event.isSceneEdit = true ↔
          (goodHost.selection.any (isJointObj goodHost) = true
            ∧ goodHost.selection.any (isTransformObj goodHost) = true)) :=
  ⟨by decide, C1_edit_gate goodHost (by decide)⟩

/-- C2 counterexample: on a concrete valid selection the first two scene
edits are the transform freeze (makeIdentity, line 133) and only then the
history deletion (line 134), so history cleanup does not come first. -/
theorem C2_counterexample :
    run_tool_valid goodHost = true
      ∧ (run_tool_events goodHost).take 2 =
          [Event.makeIdentity "crv1", Event.deleteHistory "crv1"] := by
  decide

/-- C2 (amended): when validation passes, the scene edits run as a linear
unconditional sequence in the order: freeze transforms first, then history
cleanup, then rename, then grouping, then the constraint setup (temporary
parent constraint, its deletion, orient constraint, final parent
constraint). -/
theorem C2_edit_order (h : Host) (j c : String)
    (hid : identify_selection h h.selection = (some j, some c))
    (hj : j ≠ "") (hc : c ≠ "") :
    (run_tool_events h).filter Event.isSceneEdit =
      [Event.makeIdentity c,
       Event.deleteHistory c,
       Event.rename c (pyReplace j "BIND" "CC"),
       Event.group (h.renameResult c (pyReplace j "BIND" "CC"))
         (pyReplace (h.renameResult c (pyReplace j "BIND" "CC")) "CC" "cc_GRP"),
       Event.parentConstraint j
         (h.groupResult (h.renameResult c (pyReplace j "BIND" "CC"))
           (pyReplace (h.renameResult c (pyReplace j "BIND" "CC")) "CC" "cc_GRP")) false,
       Event.deleteObj
         (h.constraintNode j
           (h.groupResult (h.renameResult c (pyReplace j "BIND" "CC"))
             (pyReplace (h.renameResult c (pyReplace j "BIND" "CC")) "CC" "cc_GRP"))),
       Event.orientConstraint (h.renameResult c (pyReplace j "BIND" "CC")) j false,
       Event.parentConstraint (h.pickWalkUp j)
         (h.groupResult (h.renameResult c (pyReplace j "BIND" "CC"))
           (pyReplace (h.renameResult c (pyReplace j "BIND" "CC")) "CC" "cc_GRP")) true] := by
  rw [run_tool_events_of_valid h j c hid hj hc, List.filter_append]
  rw [List.filter_cons_of_neg (by decide)]
  rw [update_selection_no_scene_edit h h.selAfter, List.append_nil]
  rfl

/-- C2 witness: the amended order instantiated on the intended selection,
with all derived names evaluated. -/
theorem C2_witness :
    identify_selection goodHost goodHost.selection = (some "arm_BIND", some "crv1")
      ∧ (run_tool_events goodHost).filter Event.isSceneEdit =
          [Event.makeIdentity "crv1",
           Event.deleteHistory "crv1",
           Event.rename "crv1" "arm_CC",
           Event.group "arm_CC" "arm_cc_GRP",
           Event.parentConstraint "arm_BIND" "arm_cc_GRP" false,
           Event.deleteObj "arm_cc_GRP_parentConstraint1",
           Event.orientConstraint "arm_CC" "arm_BIND" false,
           Event.parentConstraint "arm_BIND" "arm_cc_GRP" true] :=
  ⟨by decide, C2_edit_order goodHost "arm_BIND" "crv1" (by decide) (by decide) (by decide)⟩

/-- C3: when the single validation check fails, run_tool emits exactly one
warning and performs no scene edits: its whole trace is that warning. -/
theorem C3_invalid_warning (h : Host) (hv : run_tool_valid h = false) :
    run_tool_events h = [Event.warning warnMsg]
      ∧ (run_tool_events h).countP Event.isWarning = 1
      ∧ (run_tool_events h).filter Event.isSceneEdit = [] := by
  have he := run_tool_events_of_invalid h hv
  refine ⟨he, ?_, ?_⟩ <;> rw [he] <;> rfl

/-- C3 witness: the failure path instantiated on an empty selection. -/
theorem C3_witness :
    run_tool_valid emptyHost = false
      ∧ run_tool_events emptyHost = [Event.warning warnMsg] :=
  ⟨by decide, (C3_invalid_warning emptyHost (by decide)).1⟩

/-- C4 counterexample: on a concrete valid selection the post-validation
host API calls number nine, not between six and eight. -/
theorem C4_counterexample :
    run_tool_valid goodHost = true
      ∧ ((run_tool_events goodHost).filter Event.isHostCall).length = 9
      ∧ ¬ ((run_tool_events goodHost).filter Event.isHostCall).length ≤ 8 := by
  decide

/-- C4 (amended): after the selection query and validation, run_tool makes
exactly nine host API calls, in the fixed order of run_tool_actions, before
the widget updates. -/
theorem C4_nine_host_calls (h : Host) (j c : String)
    (hid : identify_selection h h.selection = (some j, some c))
    (hj : j ≠ "") (hc : c ≠ "") :
    (run_tool_events h).filter Event.isHostCall = run_tool_actions h j c
      ∧ (run_tool_actions h j c).length = 9 := by
  constructor
  · rw [run_tool_events_of_valid h j c hid hj hc, List.filter_append]
    rw [List.filter_cons_of_neg (by decide)]
    rw [update_selection_no_host_call h h.selAfter, List.append_nil]
    rfl
  · rfl

/-- C4 witness: the nine-call trace instantiated on a valid selection. -/
theorem C4_witness :
    identify_selection plainHost plainHost.selection = (some "spineJnt", some "crv2")
      ∧ ((run_tool_events plainHost).filter Event.isHostCall
            = run_tool_actions plainHost "spineJnt" "crv2"
          ∧ (run_tool_actions plainHost "spineJnt" "crv2").length = 9) :=
  ⟨by decide, C4_nine_host_calls plainHost "spineJnt" "crv2" (by decide) (by decide) (by decide)⟩

/-- C5: the scene-edit sequence of a validated run contains exactly three
constraint operations: two parent constraints and one orient constraint. -/
theorem C5_three_constraints (h : Host) (j c : String)
    (hid : identify_selection h h.selection = (some j, some c))
    (hj : j ≠ "") (hc : c ≠ "") :
    ((run_tool_events h).filter Event.isConstraintOp).length = 3 := by
  rw [run_tool_events_of_valid h j c hid hj hc, List.filter_append]
  rw [List.filter_cons_of_neg (by decide)]
  obtain ⟨t, b, hs⟩ := update_selection_shape h h.selAfter
  rw [hs]
  rfl

/-- C5 witness: the three constraint operations on the intended selection. -/
theorem C5_witness :
    identify_selection goodHost goodHost.selection = (some "arm_BIND", some "crv1")
      ∧ ((run_tool_events goodHost).filter Event.isConstraintOp).length = 3 :=
  ⟨by decide, C5_three_constraints goodHost "arm_BIND" "crv1" (by decide) (by decide) (by decide)⟩

/-- C6 counterexample: a successful run also writes the Run button enabled
state (through the trailing update_selection), a third widget beyond the
two labels. -/
theorem C6_counterexample :
    run_tool_valid goodHost = true
      ∧ (run_tool_events goodHost).any Event.isRunButtonWrite = true := by
  decide

/-- C6 (amended): a successful run writes exactly three pieces of widget
state, in order: the info label, the selected-items label, and the Run
button enabled state, and no other widget state. -/
theorem C6_widget_writes (h : Host) (j c : String)
    (hid : identify_selection h h.selection = (some j, some c))
    (hj : j ≠ "") (hc : c ≠ "") :
    ∃ t b, (run_tool_events h).filter Event.isWidgetWrite =
      [Event.setInfoText "Tool executed successfully.",
       Event.setSelectedText t, Event.setRunEnabled b] := by
  obtain ⟨t, b, hs⟩ := update_selection_shape h h.selAfter
  refine ⟨t, b, ?_⟩
  rw [run_tool_events_of_valid h j c hid hj hc, List.filter_append, hs]
  rfl

/-- C6 witness: the three widget writes on the intended selection. -/
theorem C6_witness :
    identify_selection goodHost goodHost.selection = (some "arm_BIND", some "crv1")
      ∧ ∃ t b, (run_tool_events goodHost).filter Event.isWidgetWrite =
          [Event.setInfoText "Tool executed successfully.",
           Event.setSelectedText t, Event.setRunEnabled b] :=
  ⟨by decide, C6_widget_writes goodHost "arm_BIND" "crv1" (by decide) (by decide) (by decide)⟩

/-- C7 counterexample: show_tool puts the dialog on screen with the show
call, which per the Qt toolkit displays a modeless, non-blocking dialog,
not a modal one. -/
theorem C7_counterexample :
    show_tool_display = DialogDisplay.show
      ∧ DialogDisplay.isModal show_tool_display = false := by
  decide

/-- C7 (amended): the GUI is exposed through a modeless dialog: show_tool
displays it with show, so interaction with the host is not blocked. -/
theorem C7_modeless : DialogDisplay.isModal show_tool_display = false :=
  rfl

/-- C8: identify_selection returns as the joint the last selected element
whose host object type is joint and as the curve the last selected element
whose host object type is transform, none for each when no such element
exists; only the object type is consulted, so any transform is accepted as
the curve with no curve-shape check, and all other types are ignored. -/
theorem C8_identify_selection_last (h : Host) (sel : List String) :
    identify_selection h sel =
      ((sel.filter (isJointObj h)).getLast?, (sel.filter (isTransformObj h)).getLast?) :=
  identify_spec h sel

/-- C9: after update_selection the Run button is enabled iff the selection
has exactly two elements and identify_selection finds both a joint and a
curve in it; on every disabled branch the selected-items label is set to
one of the two instruction messages. -/
theorem C9_button_enabled_iff (h : Host) (sel : List String) (hn : ∀ s ∈ sel, s ≠ "") :
    (((update_selection_events h sel).getLast? = some (Event.setRunEnabled true)
        ↔ (sel.length = 2 ∧ (identify_selection h sel).1.isSome = true
             ∧ (identify_selection h sel).2.isSome = true))
      ∧ ((update_selection_events h sel).getLast? = some (Event.setRunEnabled false) →
          ((update_selection_events h sel).head?
              = some (Event.setSelectedText "You must select one joint and one curve.")
            ∨ (update_selection_events h sel).head?
              = some (Event.setSelectedText "Selection must include one joint and one curve.")))) := by
  by_cases hl : sel.length = 2
  · rcases hid : identify_selection h sel with ⟨j?, c?⟩
    cases j? with
    | none =>
      have hev : update_selection_events h sel =
          [Event.setSelectedText "Selection must include one joint and one curve.",
           Event.setRunEnabled false] := by
        unfold update_selection_events
        rw [if_neg (by simp [hl]), hid]
      rw [hev]
      simp [hl]
    | some j =>
      cases c? with
      | none =>
        have hev : update_selection_events h sel =
            [Event.setSelectedText "Selection must include one joint and one curve.",
             Event.setRunEnabled false] := by
          unfold update_selection_events
          rw [if_neg (by simp [hl]), hid]
        rw [hev]
        simp [hl]
      | some c =>
        have hj : j ≠ "" := hn j (identify_joint_mem h sel j (by rw [hid]))
        have hc : c ≠ "" := hn c (identify_curve_mem h sel c (by rw [hid]))
        have hev : update_selection_events h sel =
            [Event.setSelectedText ("Selected Joint: " ++ j ++ "\nSelected Curve: " ++ c),
             Event.setRunEnabled true] := by
          unfold update_selection_events
          rw [if_neg (by simp [hl]), hid]
          simp [hj, hc]
        rw [hev]
        simp [hl]
  · have hev : update_selection_events h sel =
        [Event.setSelectedText "You must select one joint and one curve.",
         Event.setRunEnabled false] := by
      unfold update_selection_events
      rw [if_pos hl]
    rw [hev]
    simp [hl]

/-- C9 witness: the enabling condition instantiated on the intended
selection of one joint and one curve. -/
theorem C9_witness :
    (∀ s ∈ goodHost.selection, s ≠ "")
      ∧ (((update_selection_events goodHost goodHost.selection).getLast?
              = some (Event.setRunEnabled true)
            ↔ (goodHost.selection.length = 2
                 ∧ (identify_selection goodHost goodHost.selection).1.isSome = true
                 ∧ (identify_selection goodHost goodHost.selection).2.isSome = true))
          ∧ ((update_selection_events goodHost goodHost.selection).getLast?
                = some (Event.setRunEnabled false) →
              ((update_selection_events goodHost goodHost.selection).head?
                  = some (Event.setSelectedText "You must select one joint and one curve.")
                ∨ (update_selection_events goodHost goodHost.selection).head?
                  = some (Event.setSelectedText "Selection must include one joint and one curve.")))) :=
  ⟨by decide, C9_button_enabled_iff goodHost goodHost.selection (by decide)⟩

/-- C10: the requested controller name replaces every BIND in the joint
name with CC; the requested group name replaces every CC in the returned
controller name with cc_GRP; and when the joint name contains no BIND the
curve is renamed to the joint name itself. -/
theorem C10_rename_rule (h : Host) (j c : String)
    (hid : identify_selection h h.selection = (some j, some c))
    (hj : j ≠ "") (hc : c ≠ "") :
    ((run_tool_events h)[2]? = some (Event.rename c (pyReplace j "BIND" "CC"))
      ∧ (run_tool_events h)[3]? = some (Event.group (h.renameResult c (pyReplace j "BIND" "CC"))
          (pyReplace (h.renameResult c (pyReplace j "BIND" "CC")) "CC" "cc_GRP"))
      ∧ (containsStr j "BIND" = false →
          (run_tool_events h)[2]? = some (Event.rename c j))) := by
  have he := run_tool_events_of_valid h j c hid hj hc
  have h1 : (run_tool_events h)[2]? = some (Event.rename c (pyReplace j "BIND" "CC")) := by
    rw [he]
    rfl
  refine ⟨h1, by rw [he]; rfl, fun hno => ?_⟩
  have hrep := pyReplace_of_not_contains j "BIND" "CC" hno
  rw [hrep] at h1
  exact h1

/-- C10 witness: a joint named spineJnt contains no BIND, so the curve is
renamed to spineJnt itself and the group request is spineJnt unchanged by
the CC substitution step applied to it. -/
theorem C10_witness :
    identify_selection plainHost plainHost.selection = (some "spineJnt", some "crv2")
      ∧ containsStr "spineJnt" "BIND" = false
      ∧ ((run_tool_events plainHost)[2]? = some (Event.rename "crv2" (pyReplace "spineJnt" "BIND" "CC"))
          ∧ (run_tool_events plainHost)[3]? = some (Event.group
              (plainHost.renameResult "crv2" (pyReplace "spineJnt" "BIND" "CC"))
              (pyReplace (plainHost.renameResult "crv2" (pyReplace "spineJnt" "BIND" "CC")) "CC" "cc_GRP"))
          ∧ (containsStr "spineJnt" "BIND" = false →
              (run_tool_events plainHost)[2]? = some (Event.rename "crv2" "spineJnt"))) :=
  ⟨by decide, by decide,
    C10_rename_rule plainHost "spineJnt" "crv2" (by decide) (by decide) (by decide)⟩
